import Mathlib

/-!
# Verification of the BX-lighthouse state-transition core

Shallow embedding of the repository's state-transition functions:

* `consensus/state_processing/src/per_block_processing/verify_attestation.rs`
* `consensus/state_processing/src/common/slash_validator.rs`
* `consensus/state_processing/src/rewards.rs`
* `consensus/state_processing/src/per_epoch_processing/base/rewards_and_penalties.rs`
* `consensus/state_processing/src/per_block_processing/altair/sync_committee.rs`
* `consensus/types/src/validator.rs`

Machine integers (`u64`) are modelled as `Nat` with explicit saturation /
checked-overflow helpers where the Rust code uses `saturating_*` or `safe_*`
arithmetic.  Fallible Rust functions returning `Result` are modelled with
`Except`; functions taking `&mut BeaconState` are modelled by explicit state
passing, returning the (possibly partially mutated) state alongside the
result, so that early-return error paths keep exactly the mutations the Rust
code had performed up to that point.
-/

set_option linter.unnecessarySeqFocus false

namespace BX

/-- `u64::MAX`. -/
def u64Max : Nat := 2 ^ 64 - 1

/-- `u64::saturating_add`. -/
def saturatingAdd (a b : Nat) : Nat := min (a + b) u64Max

/-- Plain `u64` `+` as it behaves in release builds: wrapping addition
modulo `2^64`.  (A debug build would panic where this wraps.) -/
def wrappingAdd (a b : Nat) : Nat := (a + b) % 2 ^ 64

/-- `u64::saturating_mul`. -/
def saturatingMul (a b : Nat) : Nat := min (a * b) u64Max

/-- `SafeArith::safe_add` on `u64`: checked addition, `none` on overflow. -/
def safeAdd (a b : Nat) : Option Nat :=
  if a + b ≤ u64Max then some (a + b) else none

/-- `SafeArith::safe_div` on `u64`: checked division, `none` on division by zero. -/
def safeDiv (a b : Nat) : Option Nat :=
  if b = 0 then none else some (a / b)

/-- The ordered protocol-version variants of the state
(`BeaconState::Base | Altair | Bellatrix | Capella | Deneb | Electra`). -/
inductive ForkName where
  | base
  | altair
  | bellatrix
  | capella
  | deneb
  | electra
deriving DecidableEq, Repr

/-- `types::Checkpoint`: an (epoch, block-root) pair.  Block roots are
modelled as `Nat` since only equality on them matters here. -/
structure Checkpoint where
  epoch : Nat
  root : Nat
deriving DecidableEq, Repr

/-- The fields of `types::Validator` (`consensus/types/src/validator.rs`)
used by the state-transition logic verified here (public key and withdrawal
credentials are irrelevant to these claims and omitted). -/
structure Validator where
  effectiveBalance : Nat
  slashed : Bool
  activationEpoch : Nat
  exitEpoch : Nat
  withdrawableEpoch : Nat
deriving DecidableEq, Repr

/-- `Validator::is_active_at` (`validator.rs` line 88):
`self.activation_epoch <= epoch && epoch < self.exit_epoch`. -/
def Validator.isActiveAt (v : Validator) (epoch : Nat) : Bool :=
  v.activationEpoch ≤ epoch && epoch < v.exitEpoch

/-- `types::AttestationData` (the part reachable through
`attestation.data()`): slot, committee index, source and target checkpoints. -/
structure AttestationData where
  slot : Nat
  index : Nat
  source : Checkpoint
  target : Checkpoint
deriving DecidableEq, Repr

/-- The `BeaconState` model.  Concrete containers (validators, balances,
slashings, participation flags, sync-committee public keys, justification
checkpoints) are translated directly.  Accessors whose implementations live
outside the provided sources are carried as components of the record:

* `committeeCountAtSlot` / `beaconCommittee` model the committee-resolution
  primitive (`get_committee_count_at_slot` / `get_beacon_committee`), an
  external collaborator; `none` stands for the `Err` case.
* `validatorIndexOf` models `get_validator_index` (public key → validator
  index); its Rust type is `Result<Option<usize>>` but every call site in the
  sources treats `Err` and `Ok(None)` identically (`if let Ok(Some(i)) = …`),
  so both collapse to `none`.
* `blockRootAt` models `get_block_root`; `none` stands for `Err`.
* `syncSignatureSet` models `sync_aggregate_signature_set` applied to an
  aggregate's bits: `none` = `Err`, `some none` = no signature set (infinity,
  vacuously valid), `some (some b)` = a signature set whose `verify()`
  returns `b`.
* Participation lists are `Option`s because `previous_epoch_participation()` /
  `current_epoch_participation()` return `Err` on pre-Altair states.
* `currentEpoch` models the `current_epoch()` accessor (derived from the slot
  in the full type, out of scope here).

Public keys are modelled as `Nat`. -/
structure BeaconState where
  fork : ForkName
  slot : Nat
  currentEpoch : Nat
  currentJustifiedCheckpoint : Checkpoint
  previousJustifiedCheckpoint : Checkpoint
  validators : List Validator
  balances : List Nat
  slashings : List Nat
  previousEpochParticipation : Option (List Nat)
  currentEpochParticipation : Option (List Nat)
  currentSyncCommittee : Option (List Nat)
  validatorIndexOf : Nat → Option Nat
  committeeCountAtSlot : Nat → Option Nat
  beaconCommittee : Nat → Nat → Option (List Nat)
  blockRootAt : Nat → Option Nat
  syncSignatureSet : List Bool → Option (Option Bool)

/-- Modelled from the spec: `BeaconState::previous_epoch` is the immediately
preceding epoch (saturating at zero); its implementation is outside the
provided sources. -/
def BeaconState.previousEpoch (s : BeaconState) : Nat := s.currentEpoch - 1

/-- `per_block_processing::errors::AttestationInvalid` (the variants used by
`verify_attestation.rs`), plus a `beaconStateError` standing for
`BeaconStateError`s lifted by `?`, and `badIndexedAttestation` standing for
the error of `is_valid_indexed_attestation`. -/
inductive AttestationInvalid where
  | targetEpochIncorrect (targetEpoch currentEpoch : Nat)
  | sourceEpochIncorrect (source : Checkpoint) (targetEpoch : Nat)
      (expectedSource : Checkpoint)
  | beaconStateError
  | badIndexedAttestation
deriving DecidableEq, Repr

/-- Modelled from the spec: `ConsensusContext` supplies
`get_indexed_attestation` (raw → indexed conversion via committee lookup) and
`is_valid_indexed_attestation` is the indexed-form index/signature check;
both live outside the provided sources (§4.3: external committee-resolution
and signature primitives).  `getIndexedAttestation` returns the indexed
attestation's validator-index list (`none` = `Err`);
`isValidIndexedAttestation` says whether the check passes. -/
structure ConsensusContext where
  getIndexedAttestation : AttestationData → Option (List Nat)
  isValidIndexedAttestation : List Nat → Bool

/-- `VerifySignatures` is a two-valued switch in the Rust sources; `true`
models `VerifySignatures::True`. -/
abbrev VerifySignatures := Bool

/-- `verify_casper_ffg_vote` (`verify_attestation.rs` lines 104-138).
Target epoch must be the current or previous epoch; then, instead of
requiring source-checkpoint equality, the code only rejects when the
attestation's source epoch is more than 2 behind the expected justified
checkpoint's epoch
(`data.source.epoch.as_u64() + 2 < expected_source.epoch.as_u64()`,
line 129).  That line uses plain `u64` `+`, not `SafeArith`, so the sum
wraps modulo `2^64` in release builds — modelled with `wrappingAdd`: a
source epoch of `u64::MAX` wraps to 1 and is rejected against any expected
epoch above 1. -/
def verifyCasperFfgVote (data : AttestationData) (s : BeaconState) :
    Except AttestationInvalid Unit :=
  if data.target.epoch ≠ s.currentEpoch ∧ data.target.epoch ≠ s.previousEpoch then
    .error (.targetEpochIncorrect data.target.epoch s.currentEpoch)
  else
    let expectedSource :=
      if data.target.epoch = s.currentEpoch then s.currentJustifiedCheckpoint
      else s.previousJustifiedCheckpoint
    if wrappingAdd data.source.epoch 2 < expectedSource.epoch then
      .error (.sourceEpochIncorrect data.source data.target.epoch expectedSource)
    else
      .ok ()

/-- `verify_attestation_for_block_inclusion` (`verify_attestation.rs` lines
18-52): first the explicit `source.epoch > target.epoch` check (lines 29-41),
then `verify_casper_ffg_vote`, then indexed-attestation conversion and
validation. -/
def verifyAttestationForBlockInclusion (s : BeaconState) (data : AttestationData)
    (ctxt : ConsensusContext) (_verifySignatures : VerifySignatures) :
    Except AttestationInvalid (List Nat) :=
  if data.source.epoch > data.target.epoch then
    let expectedSource :=
      if data.target.epoch = s.currentEpoch then s.currentJustifiedCheckpoint
      else s.previousJustifiedCheckpoint
    .error (.sourceEpochIncorrect data.source data.target.epoch expectedSource)
  else do
    verifyCasperFfgVote data s
    match ctxt.getIndexedAttestation data with
    | none => .error .beaconStateError
    | some indexed =>
      if ctxt.isValidIndexedAttestation indexed then .ok indexed
      else .error .badIndexedAttestation

/-- `verify_attestation_for_state` (`verify_attestation.rs` lines 61-99):
committee-count and committee-non-emptiness checks (both reusing
`TargetEpochIncorrect`), then `verify_casper_ffg_vote`, then
indexed-attestation conversion and validation.  Note: unlike
`verify_attestation_for_block_inclusion` it has no
`source.epoch > target.epoch` check. -/
def verifyAttestationForState (s : BeaconState) (data : AttestationData)
    (ctxt : ConsensusContext) (_verifySignatures : VerifySignatures) :
    Except AttestationInvalid (List Nat) :=
  match s.committeeCountAtSlot data.slot with
  | none => .error .beaconStateError
  | some committeesPerSlot =>
    if data.index ≥ committeesPerSlot then
      .error (.targetEpochIncorrect data.target.epoch s.currentEpoch)
    else
      match s.beaconCommittee data.slot data.index with
      | none => .error .beaconStateError
      | some committee =>
        if committee.length > 0 then do
          verifyCasperFfgVote data s
          match ctxt.getIndexedAttestation data with
          | none => .error .beaconStateError
          | some indexed =>
            if ctxt.isValidIndexedAttestation indexed then .ok indexed
            else .error .badIndexedAttestation
        else
          .error (.targetEpochIncorrect data.target.epoch s.currentEpoch)

/-- The variants of `BlockProcessingError` / `BeaconStateError` reached by
`slash_validator.rs` and `sync_committee.rs`.  `validatorAlreadySlashed` is
the variant named by the specification for the double-slash guard; the
observed code instead returns `validatorIsWithdrawable`
(`slash_validator.rs` line 28). -/
inductive BlockProcessingError where
  | unknownValidator (index : Nat)
  | validatorIsWithdrawable
  | validatorAlreadySlashed
  | slashingsOutOfBounds (index : Nat)
  | balanceOutOfBounds (index : Nat)
  | arithError
  | incorrectStateType
  | syncAggregateSignatureInvalid
  | blockRootError
deriving DecidableEq, Repr

/-- The protocol-constant inputs of `slash_validator`:
`spec.min_slashing_penalty_quotient_for_state(state)` (fork-dependent, from
the external `ChainSpec` constant table) and the type-level constant
`E::EpochsPerSlashingsVector`. -/
structure ChainSpec where
  minSlashingPenaltyQuotientForState : ForkName → Nat
  epochsPerSlashingsVector : Nat

/-- Modelled from the spec (§4.1): `common::decrease_balance`, whose
implementation is outside the provided sources — fails with an out-of-bounds
error if the index is not a valid balance index, otherwise applies a
saturating subtraction (a penalty that would drive the balance negative
clamps it to zero.)  `Nat` subtraction is exactly this saturating
subtraction. -/
def decreaseBalance (s : BeaconState) (index amount : Nat) :
    Except BlockProcessingError Unit × BeaconState :=
  match s.balances[index]? with
  | none => (.error (.balanceOutOfBounds index), s)
  | some b => (.ok (), { s with balances := s.balances.set index (b - amount) })

/-- Modelled from the spec (§4.1): `common::increase_balance`, whose
implementation is outside the provided sources — out-of-bounds error if the
index is invalid, otherwise saturating addition. -/
def increaseBalance (s : BeaconState) (index amount : Nat) :
    Except BlockProcessingError Unit × BeaconState :=
  match s.balances[index]? with
  | none => (.error (.balanceOutOfBounds index), s)
  | some b =>
    (.ok (), { s with balances := s.balances.set index (saturatingAdd b amount) })

/-- `slash_validator` (`slash_validator.rs` lines 11-69).  Mutations are
applied in source order, so an error on a later step (e.g. slashings-bucket
lookup) leaves the earlier mutations (e.g. the `slashed` flag) in place,
exactly as the `&mut BeaconState` code does.  The progressive-balance-cache
and slashings-cache notifications (lines 60-63) are external collaborators
receiving pure notifications (spec §4.2 step 6) and are not modelled.  The
whistleblower index is unused by the code (no whistleblower rewards). -/
def slashValidator (spec : ChainSpec) (s : BeaconState) (slashedIndex : Nat) :
    Except BlockProcessingError Unit × BeaconState :=
  let epoch := s.currentEpoch
  match s.validators[slashedIndex]? with
  | none => (.error (.unknownValidator slashedIndex), s)
  | some validator =>
    if validator.slashed then
      (.error .validatorIsWithdrawable, s)
    else
      -- Set slashed flag
      let v1 := { validator with slashed := true }
      let s1 := { s with validators := s.validators.set slashedIndex v1 }
      -- Update withdrawable epoch (checked additions, as `safe_add`)
      match safeAdd epoch spec.epochsPerSlashingsVector >>= fun x => safeAdd x 1 with
      | none => (.error .arithError, s1)
      | some bound =>
        let v2 := { v1 with withdrawableEpoch := max v1.withdrawableEpoch bound }
        let s2 := { s1 with validators := s1.validators.set slashedIndex v2 }
        -- Update slashed balances
        let effectiveBalance := validator.effectiveBalance
        let slashingsIndex := epoch % spec.epochsPerSlashingsVector
        match s2.slashings[slashingsIndex]? with
        | none => (.error (.slashingsOutOfBounds slashingsIndex), s2)
        | some bucket =>
          match safeAdd bucket effectiveBalance with
          | none => (.error .arithError, s2)
          | some bucket' =>
            let s3 := { s2 with slashings := s2.slashings.set slashingsIndex bucket' }
            -- Apply slashing penalty
            match safeDiv effectiveBalance
                (spec.minSlashingPenaltyQuotientForState s3.fork) with
            | none => (.error .arithError, s3)
            | some penalty => decreaseBalance s3 slashedIndex penalty

/-! ## `rewards.rs` -/

/-- `VALIDATOR_REWARD_PERCENTAGE` (`rewards.rs` line 5). -/
def VALIDATOR_REWARD_PERCENTAGE : Nat := 70

/-- `GRIDBOX_REWARD_PERCENTAGE` (`rewards.rs` line 6). -/
def GRIDBOX_REWARD_PERCENTAGE : Nat := 20

/-- `MARKETING_REWARD_PERCENTAGE` (`rewards.rs` line 7). -/
def MARKETING_REWARD_PERCENTAGE : Nat := 10

/-- `GRIDBOX_ADDRESS_INDEX` (`rewards.rs` line 10). -/
def GRIDBOX_ADDRESS_INDEX : Nat := 0

/-- `MARKETING_ADDRESS_INDEX` (`rewards.rs` line 11). -/
def MARKETING_ADDRESS_INDEX : Nat := 1

/-- `RewardConfig` (`rewards.rs` lines 14-21). -/
structure RewardConfig where
  proposerRewardInitial : Nat
  attestationRewardInitial : Nat
  syncCommitteeRewardInitial : Nat
deriving DecidableEq, Repr

/-- `impl Default for RewardConfig` (`rewards.rs` lines 23-32). -/
def defaultRewardConfig : RewardConfig where
  proposerRewardInitial := 2600000000
  attestationRewardInitial := 100000
  syncCommitteeRewardInitial := 100000

/-- `RewardAmounts` (`rewards.rs` lines 35-39). -/
structure RewardAmounts where
  proposerReward : Nat
  attestationReward : Nat
  syncCommitteeReward : Nat
deriving DecidableEq, Repr

/-- The proposer-reward branch ladder inside `calculate_reward_amounts`
(`rewards.rs` lines 44-110): a step function of the epoch. -/
def proposerRewardAmount (ep : Nat) : Nat :=
  if ep ≤ 25200 then 2600000000
  else if ep ≤ 100800 then 2100000000
  else if ep ≤ 176400 then 1700000000
  else if ep ≤ 252000 then 1300000000
  else if ep ≤ 327600 then 1100000000
  else if ep ≤ 403200 then 1000000000
  else if ep ≤ 478800 then 900000000
  else if ep ≤ 554400 then 750000000
  else if ep ≤ 630000 then 650000000
  else if ep ≤ 705600 then 650000000
  else if ep ≤ 781200 then 600000000
  else if ep ≤ 856800 then 550000000
  else if ep ≤ 932400 then 500000000
  else if ep ≤ 1008000 then 450000000
  else if ep ≤ 1083600 then 400000000
  else if ep ≤ 1159200 then 350000000
  else if ep ≤ 1234800 then 300000000
  else if ep ≤ 1310400 then 250000000
  else if ep ≤ 1386000 then 200000000
  else if ep ≤ 1461600 then 150000000
  else if ep ≤ 1537200 then 100000000
  else if ep ≤ 1612800 then 50000000
  else if ep ≤ 1688400 then 45000000
  else if ep ≤ 1764000 then 40000000
  else if ep ≤ 1839600 then 35000000
  else if ep ≤ 1915200 then 30000000
  else if ep ≤ 1990800 then 25000000
  else if ep ≤ 2066400 then 20000000
  else if ep ≤ 2142000 then 15000000
  else if ep ≤ 2217600 then 10000000
  else if ep ≤ 2293200 then 5000000
  else 0

/-- `calculate_reward_amounts` (`rewards.rs` lines 42-117): the proposer
reward follows the epoch ladder; the attestation and sync-committee rewards
are taken unchanged from the configuration. -/
def calculateRewardAmounts (currentEpoch : Nat) (config : RewardConfig) :
    RewardAmounts where
  proposerReward := proposerRewardAmount currentEpoch
  attestationReward := config.attestationRewardInitial
  syncCommitteeReward := config.syncCommitteeRewardInitial

/-- The rewarded validator's share
(`reward_amount.saturating_mul(VALIDATOR_REWARD_PERCENTAGE) / 100`,
`rewards.rs` line 130 and identically lines 209, 253). -/
def validatorShare (rewardAmount : Nat) : Nat :=
  saturatingMul rewardAmount VALIDATOR_REWARD_PERCENTAGE / 100

/-- The dev (gridbox) sink share
(`reward_amount.saturating_mul(GRIDBOX_REWARD_PERCENTAGE) / 100`,
`rewards.rs` line 131). -/
def devShare (rewardAmount : Nat) : Nat :=
  saturatingMul rewardAmount GRIDBOX_REWARD_PERCENTAGE / 100

/-- The charity (marketing) sink share
(`reward_amount.saturating_mul(MARKETING_REWARD_PERCENTAGE) / 100`,
`rewards.rs` line 132). -/
def charityShare (rewardAmount : Nat) : Nat :=
  saturatingMul rewardAmount MARKETING_REWARD_PERCENTAGE / 100

/-- `apply_proposer_reward` (`rewards.rs` lines 120-156): early `Ok` on a
zero reward; otherwise credit the proposer 70%, the gridbox sink 20% and the
marketing sink 10%, each by saturating addition via `get_balance_mut`,
stopping at the first unresolvable balance index. -/
def applyProposerReward (s : BeaconState) (proposerIndex rewardAmount : Nat) :
    Except String Unit × BeaconState :=
  if rewardAmount = 0 then (.ok (), s)
  else
    match s.balances[proposerIndex]? with
    | none => (.error "Failed to get proposer balance", s)
    | some b =>
      let s1 := { s with
        balances := s.balances.set proposerIndex
          (saturatingAdd b (validatorShare rewardAmount)) }
      match s1.balances[GRIDBOX_ADDRESS_INDEX]? with
      | none => (.error "Failed to get dev address balance", s1)
      | some db =>
        let s2 := { s1 with
          balances := s1.balances.set GRIDBOX_ADDRESS_INDEX
            (saturatingAdd db (devShare rewardAmount)) }
        match s2.balances[MARKETING_ADDRESS_INDEX]? with
        | none => (.error "Failed to get charity address balance", s2)
        | some cb =>
          (.ok (), { s2 with
            balances := s2.balances.set MARKETING_ADDRESS_INDEX
              (saturatingAdd cb (charityShare rewardAmount)) })

/-- The per-epoch-list index collection inside `collect_attesting_validators`
(`rewards.rs` lines 163-180): the indices whose participation byte is
non-zero. -/
def flaggedIndices (participation : List Nat) : List Nat :=
  (List.range participation.length).filter fun i =>
    decide (0 < participation.getD i 0)

/-- The fallback collection inside `collect_attesting_validators`
(`rewards.rs` lines 188-192): indices of all validators active at the current
epoch. -/
def activeValidatorIndices (s : BeaconState) : List Nat :=
  (List.range s.validators.length).filter fun i =>
    match s.validators[i]? with
    | some v => v.isActiveAt s.currentEpoch
    | none => false

/-- `collect_attesting_validators` (`rewards.rs` lines 159-197): previous-
plus current-epoch flagged indices (each epoch list contributing only when
its accessor returns `Ok`), de-duplicated (the code accumulates into a
`HashSet`, so only the resulting index set is specified — the `HashSet`
iteration order of the returned `Vec` is arbitrary); if the set is empty,
fall back to all validators active at the current epoch. -/
def collectAttestingValidators (s : BeaconState) : List Nat :=
  let prev := match s.previousEpochParticipation with
    | some ps => flaggedIndices ps
    | none => []
  let curr := match s.currentEpochParticipation with
    | some ps => flaggedIndices ps
    | none => []
  let collected := (prev ++ curr).dedup
  if collected.isEmpty then activeValidatorIndices s else collected

/-- Whether every available participation byte (previous and current epoch)
is zero — the condition under which `collect_attesting_validators` takes its
active-validator fallback. -/
def noParticipationFlags (s : BeaconState) : Bool :=
  (match s.previousEpochParticipation with
    | some ps => ps.all fun b => b = 0
    | none => true) &&
  (match s.currentEpochParticipation with
    | some ps => ps.all fun b => b = 0
    | none => true)

/-- The pair collection inside `apply_sync_committee_rewards`
(`rewards.rs` lines 257-270): for each seat `i` of the current sync
committee, if `sync_committee_bits.get(i)` is in bounds and set, record the
seat's public key (an `Err` from `current_sync_committee()` leaves the
collection empty). -/
def syncCommitteePairs (s : BeaconState) (bits : List Bool) : List Nat :=
  match s.currentSyncCommittee with
  | none => []
  | some pubkeys =>
    ((List.range pubkeys.length).filter fun i => bits.getD i false).filterMap
      fun i => pubkeys[i]?

/-- The index resolution inside `apply_sync_committee_rewards`
(`rewards.rs` lines 272-278): map each recorded public key through
`get_validator_index`, keeping only keys that resolve. -/
def syncCommitteeIndices (s : BeaconState) (bits : List Bool) : List Nat :=
  (syncCommitteePairs s bits).filterMap s.validatorIndexOf

/-- The sync-committee index collection of the per-epoch pass
`process_rewards_and_penalties` (`rewards_and_penalties.rs` lines 109-124):
every public key of the current sync committee — with no reference to any
sync aggregate's participation bits — resolved through
`get_validator_index`, keeping only keys that resolve. -/
def epochSyncCommitteeValidators (s : BeaconState) : List Nat :=
  (match s.currentSyncCommittee with
    | none => []
    | some pubkeys => pubkeys).filterMap s.validatorIndexOf

/-! ## `per_block_processing/altair/sync_committee.rs` -/

/-- A `SyncAggregate`, reduced to its participation bitlist; the aggregate
signature itself is opaque to this core (its validity enters through
`BeaconState.syncSignatureSet`). -/
structure SyncAggregate where
  syncCommitteeBits : List Bool
deriving DecidableEq, Repr

/-- `process_sync_aggregate` (`sync_committee.rs` lines 9-49).  When
signature verification is requested: read the previous block root
(`slot.saturating_sub(1)`), build the aggregate signature set (`none` set =
infinity = vacuously valid) and reject on failed verification.  The
participation-update call (`process_sync_committee_contributions`) is
commented out in the source (line 43), and nothing in the body writes to the
state, so the state is returned as received on every path. -/
def processSyncAggregate (s : BeaconState) (aggregate : SyncAggregate)
    (_proposerIndex : Nat) (verifySignatures : VerifySignatures) :
    Except BlockProcessingError Unit × BeaconState :=
  if verifySignatures then
    let previousSlot := s.slot - 1
    match s.blockRootAt previousSlot with
    | none => (.error .blockRootError, s)
    | some _previousBlockRoot =>
      match s.syncSignatureSet aggregate.syncCommitteeBits with
      | none => (.error .blockRootError, s)
      | some none => (.ok (), s)
      | some (some verifies) =>
        if verifies then (.ok (), s)
        else (.error .syncAggregateSignatureInvalid, s)
  else
    (.ok (), s)

/-- `process_sync_committee_contributions` (`sync_committee.rs` lines
61-101) — the private helper whose only call site is commented out: on an
Altair-or-later state variant it requires the current sync committee
(otherwise `IncorrectStateType`), collects the set-bit seat positions, and
performs no state mutation; on a `Base` state it fails with
`IncorrectStateType`. -/
def processSyncCommitteeContributions (s : BeaconState)
    (aggregate : SyncAggregate) : Except BlockProcessingError Unit :=
  match s.fork with
  | .base => .error .incorrectStateType
  | _ =>
    match s.currentSyncCommittee with
    | none => .error .incorrectStateType
    | some pubkeys =>
      let _participating :=
        (List.range (min aggregate.syncCommitteeBits.length pubkeys.length)).filter
          fun i => aggregate.syncCommitteeBits.getD i false
      .ok ()

/-! ## Fixtures and theorems -/

/-- The checkpoint the state considers justified for a target epoch
(the repeated inline expression at `verify_attestation.rs` lines 30-34 and
123-127): the current-justified checkpoint if the target epoch is the current
epoch, the previous-justified checkpoint otherwise. -/
def expectedSourceFor (s : BeaconState) (targetEpoch : Nat) : Checkpoint :=
  if targetEpoch = s.currentEpoch then s.currentJustifiedCheckpoint
  else s.previousJustifiedCheckpoint

/-- A minimal state fixture; concrete test states below override the fields
they care about. -/
def emptyState : BeaconState where
  fork := .altair
  slot := 0
  currentEpoch := 0
  currentJustifiedCheckpoint := ⟨0, 0⟩
  previousJustifiedCheckpoint := ⟨0, 0⟩
  validators := []
  balances := []
  slashings := []
  previousEpochParticipation := none
  currentEpochParticipation := none
  currentSyncCommittee := none
  validatorIndexOf := fun _ => none
  committeeCountAtSlot := fun _ => none
  beaconCommittee := fun _ _ => none
  blockRootAt := fun _ => none
  syncSignatureSet := fun _ => none

/-- State at epoch 5 whose current-justified checkpoint is `(5, 1)` and
previous-justified checkpoint `(4, 1)`. -/
def stC1 : BeaconState :=
  { emptyState with
    slot := 160
    currentEpoch := 5
    currentJustifiedCheckpoint := ⟨5, 1⟩
    previousJustifiedCheckpoint := ⟨4, 1⟩ }

/-- An attestation for the current epoch whose source checkpoint `(4, 99)`
differs from the state's current-justified checkpoint `(5, 1)`. -/
def dataC1 : AttestationData :=
  { slot := 160, index := 0, source := ⟨4, 99⟩, target := ⟨5, 0⟩ }

/-- C1 counterexample: an attestation whose target epoch is the state's
current epoch and whose source checkpoint differs from the current-justified
checkpoint is nevertheless accepted by `verify_casper_ffg_vote` — the code
tolerates a source-epoch drift of 2 instead of requiring checkpoint
equality. -/
theorem C1_counterexample :
    verifyCasperFfgVote dataC1 stC1 = .ok () ∧
    dataC1.target.epoch = stC1.currentEpoch ∧
    dataC1.source ≠ stC1.currentJustifiedCheckpoint :=
  ⟨rfl, rfl, by decide⟩

/-- C1 (amended): for an attestation whose target epoch is the state's
current epoch (respectively its previous epoch), `verify_casper_ffg_vote`
succeeds iff the wrapped `u64` sum `(source.epoch + 2) mod 2^64` is at least
the expected justified checkpoint's epoch (current-justified for a
current-epoch target, previous-justified otherwise); when the wrapped sum is
below the expected epoch, it fails with a source-epoch error carrying the
expected checkpoint.  Source-checkpoint equality is not required; in the
non-wrapping range (`source.epoch < 2^64 - 2`) the rule is a tolerance of 2
epochs below the expected epoch, while for `source.epoch ≥ 2^64 - 2` the
plain-`u64` sum wraps and the vote is rejected against any expected epoch
above the wrapped value. -/
theorem C1_ffg_source_tolerance (s : BeaconState) (data : AttestationData)
    (h : data.target.epoch = s.currentEpoch ∨
      (data.target.epoch = s.previousEpoch ∧ data.target.epoch ≠ s.currentEpoch)) :
    (verifyCasperFfgVote data s = .ok () ↔
      (expectedSourceFor s data.target.epoch).epoch ≤
        wrappingAdd data.source.epoch 2) ∧
    (wrappingAdd data.source.epoch 2 <
        (expectedSourceFor s data.target.epoch).epoch →
      verifyCasperFfgVote data s =
        .error (.sourceEpochIncorrect data.source data.target.epoch
          (expectedSourceFor s data.target.epoch))) := by
  have hcond : ¬(data.target.epoch ≠ s.currentEpoch ∧
      data.target.epoch ≠ s.previousEpoch) := by tauto
  simp only [verifyCasperFfgVote, expectedSourceFor, if_neg hcond]
  constructor
  · split_ifs with hlt <;> simp <;> omega
  · intro hlt
    split_ifs at * <;> simp_all

/-- State at epoch 9 whose current-justified checkpoint has epoch 8. -/
def stC1w : BeaconState :=
  { emptyState with
    slot := 288
    currentEpoch := 9
    currentJustifiedCheckpoint := ⟨8, 3⟩
    previousJustifiedCheckpoint := ⟨7, 3⟩ }

/-- A current-epoch attestation whose source epoch 1 is more than 2 epochs
behind the justified epoch 8. -/
def dataC1w : AttestationData :=
  { slot := 288, index := 0, source := ⟨1, 3⟩, target := ⟨9, 0⟩ }

/-- A current-epoch attestation carrying the `u64::MAX` far-future-epoch
sentinel as source epoch: the plain-`u64` sum wraps to 1. -/
def dataC1x : AttestationData :=
  { slot := 288, index := 0,
    source := ⟨18446744073709551615, 3⟩, target := ⟨9, 0⟩ }

/-- C1 witness: the amended theorem applied to a concrete state twice — a
source epoch more than 2 epochs behind the justified epoch 8 is rejected
with the expected-checkpoint error, and a `u64::MAX` source epoch wraps to 1
and is likewise rejected. -/
theorem C1_witness :
    (dataC1w.target.epoch = stC1w.currentEpoch ∨
      (dataC1w.target.epoch = stC1w.previousEpoch ∧
        dataC1w.target.epoch ≠ stC1w.currentEpoch)) ∧
    ((verifyCasperFfgVote dataC1w stC1w = .ok () ↔
      (expectedSourceFor stC1w dataC1w.target.epoch).epoch ≤
        wrappingAdd dataC1w.source.epoch 2) ∧
    (wrappingAdd dataC1w.source.epoch 2 <
        (expectedSourceFor stC1w dataC1w.target.epoch).epoch →
      verifyCasperFfgVote dataC1w stC1w =
        .error (.sourceEpochIncorrect dataC1w.source dataC1w.target.epoch
          (expectedSourceFor stC1w dataC1w.target.epoch)))) ∧
    (wrappingAdd dataC1x.source.epoch 2 <
        (expectedSourceFor stC1w dataC1x.target.epoch).epoch ∧
      verifyCasperFfgVote dataC1x stC1w =
        .error (.sourceEpochIncorrect dataC1x.source dataC1x.target.epoch
          (expectedSourceFor stC1w dataC1x.target.epoch))) :=
  ⟨Or.inl rfl, C1_ffg_source_tolerance stC1w dataC1w (Or.inl rfl),
   by decide,
   (C1_ffg_source_tolerance stC1w dataC1x (Or.inl rfl)).2 (by decide)⟩

/-- State at epoch 5 with justified checkpoints at epoch 4, one scheduled
committee per slot, a singleton committee, and an indexed-attestation context
that resolves and validates successfully. -/
def stC2 : BeaconState :=
  { emptyState with
    slot := 160
    currentEpoch := 5
    currentJustifiedCheckpoint := ⟨4, 0⟩
    previousJustifiedCheckpoint := ⟨4, 0⟩
    validators := [⟨32000000000, false, 0, 100000, 100000⟩]
    balances := [32000000000]
    committeeCountAtSlot := fun _ => some 1
    beaconCommittee := fun _ _ => some [0] }

/-- A consensus context whose indexed-attestation conversion and validation
both succeed. -/
def ctxtC2 : ConsensusContext :=
  { getIndexedAttestation := fun _ => some [0]
    isValidIndexedAttestation := fun _ => true }

/-- A structurally nonsensical vote: source epoch 7 strictly greater than
target epoch 5. -/
def dataC2 : AttestationData :=
  { slot := 160, index := 0, source := ⟨7, 0⟩, target := ⟨5, 0⟩ }

/-- C2 counterexample: an attestation with `source.epoch > target.epoch` is
accepted by `verify_attestation_for_state` — that entry point has no
source-versus-target epoch check, and the loosened FFG check does not reject
a source epoch that is too high. -/
theorem C2_counterexample :
    dataC2.target.epoch < dataC2.source.epoch ∧
    verifyAttestationForState stC2 dataC2 ctxtC2 false = .ok [0] :=
  ⟨by decide, rfl⟩

/-- C2 (amended): `verify_attestation_for_block_inclusion` rejects every
attestation with `source.epoch > target.epoch` immediately — before the FFG
checkpoint check — with a source-epoch error carrying the expected justified
checkpoint; `verify_attestation_for_state` performs no such check and can
accept such an attestation. -/
theorem C2_source_epoch_check (s : BeaconState) (data : AttestationData)
    (ctxt : ConsensusContext) (vs : VerifySignatures)
    (h : data.target.epoch < data.source.epoch) :
    verifyAttestationForBlockInclusion s data ctxt vs =
      .error (.sourceEpochIncorrect data.source data.target.epoch
        (expectedSourceFor s data.target.epoch)) := by
  simp [verifyAttestationForBlockInclusion, expectedSourceFor, h]

/-- C2 witness: the amended theorem applied to the concrete nonsensical
vote, together with the fact that `verify_attestation_for_state` accepts that
same vote. -/
theorem C2_witness :
    dataC2.target.epoch < dataC2.source.epoch ∧
    verifyAttestationForBlockInclusion stC2 dataC2 ctxtC2 false =
      .error (.sourceEpochIncorrect dataC2.source dataC2.target.epoch
        (expectedSourceFor stC2 dataC2.target.epoch)) :=
  ⟨by decide, C2_source_epoch_check stC2 dataC2 ctxtC2 false (by decide)⟩

/-- Protocol constants for the slashing tests: penalty quotient 64 on every
fork, slashings ring buffer of length 4. -/
def specC3 : ChainSpec :=
  { minSlashingPenaltyQuotientForState := fun _ => 64
    epochsPerSlashingsVector := 4 }

/-- An already-slashed validator. -/
def vC3 : Validator := ⟨32000000000, true, 0, 100, 200⟩

/-- State holding the already-slashed validator `vC3`. -/
def stC3 : BeaconState :=
  { emptyState with
    currentEpoch := 10
    validators := [vC3]
    balances := [32000000000]
    slashings := [0, 0, 0, 0] }

/-- C3 counterexample: slashing an already-slashed validator fails, but with
the `ValidatorIsWithdrawable` error variant, not `ValidatorAlreadySlashed` as
the claim states. -/
theorem C3_counterexample :
    vC3.slashed = true ∧
    (slashValidator specC3 stC3 0).1 = .error .validatorIsWithdrawable ∧
    (slashValidator specC3 stC3 0).1 ≠ .error .validatorAlreadySlashed :=
  ⟨rfl, rfl, fun h => BlockProcessingError.noConfusion (Except.error.inj h)⟩

/-- C3 (amended): slashing a validator whose `slashed` flag is already set
fails with the `ValidatorIsWithdrawable` error (the code's idempotency
guard), and the rejected call returns the state exactly as received — no
validator field, slashings entry or balance is modified. -/
theorem C3_double_slash_rejected (spec : ChainSpec) (s : BeaconState)
    (i : Nat) (v : Validator) (hv : s.validators[i]? = some v)
    (hs : v.slashed = true) :
    slashValidator spec s i = (.error .validatorIsWithdrawable, s) := by
  simp [slashValidator, hv, hs]

/-- C3 witness: the amended theorem applied to the concrete already-slashed
validator. -/
theorem C3_witness :
    stC3.validators[0]? = some vC3 ∧ vC3.slashed = true ∧
    slashValidator specC3 stC3 0 = (.error .validatorIsWithdrawable, stC3) :=
  ⟨rfl, rfl, C3_double_slash_rejected specC3 stC3 0 vC3 rfl rfl⟩

/-- The validator record produced by a successful slash: `slashed` set and
`withdrawable_epoch` raised to at least `bound`, all other fields kept. -/
def slashedOutcome (v : Validator) (bound : Nat) : Validator :=
  { v with slashed := true, withdrawableEpoch := max v.withdrawableEpoch bound }

/-- A not-yet-slashed validator with effective balance 32 000 000 000 and a
zero balance. -/
def vC4 : Validator := ⟨32000000000, false, 0, 100000, 0⟩

/-- State in which validator 0 has balance 0 but effective balance
32 000 000 000. -/
def stC4 : BeaconState :=
  { emptyState with
    currentEpoch := 10
    validators := [vC4]
    balances := [0]
    slashings := [0, 0, 0, 0] }

/-- C4 counterexample: slashing succeeds, the quotient-64 penalty on a
32 000 000 000 effective balance is 500 000 000, yet the validator's balance
decreases by 0, not by the penalty — the ledger's decrease saturates at
zero. -/
theorem C4_counterexample :
    vC4.slashed = false ∧
    vC4.effectiveBalance / specC3.minSlashingPenaltyQuotientForState stC4.fork =
      500000000 ∧
    stC4.balances[0]? = some 0 ∧
    (slashValidator specC3 stC4 0).1 = .ok () ∧
    (slashValidator specC3 stC4 0).2.balances[0]? = some 0 :=
  ⟨rfl, by decide, rfl, rfl, rfl⟩

/-- C4 (amended): a successful `slash_validator` call on a not-yet-slashed
validator sets its `slashed` flag, raises `withdrawable_epoch` to
`max(previous, current_epoch + slashings_vector_length + 1)`, adds the
effective balance into the slashings bucket at
`current_epoch mod slashings_vector_length`, and decreases the validator's
balance by `effective_balance / quotient` saturating at zero (so the exact
loss of 500 000 000 for a 32 000 000 000 effective balance under quotient 64
holds whenever the balance is at least the penalty). -/
theorem C4_slash_effects (spec : ChainSpec) (s : BeaconState) (i : Nat)
    (v : Validator) (hv : s.validators[i]? = some v) (hns : v.slashed = false)
    (hok : (slashValidator spec s i).1 = .ok ()) :
    (slashValidator spec s i).2.validators[i]? = some
      (slashedOutcome v (s.currentEpoch + spec.epochsPerSlashingsVector + 1)) ∧
    (∃ bucket,
      s.slashings[s.currentEpoch % spec.epochsPerSlashingsVector]? =
        some bucket ∧
      (slashValidator spec s i).2.slashings[s.currentEpoch %
          spec.epochsPerSlashingsVector]? =
        some (bucket + v.effectiveBalance)) ∧
    (∃ b, s.balances[i]? = some b ∧
      (slashValidator spec s i).2.balances[i]? = some
        (b - v.effectiveBalance /
          spec.minSlashingPenaltyQuotientForState s.fork)) := by
  have hvlen : i < s.validators.length := (List.getElem?_eq_some.mp hv).1
  simp only [slashValidator, hv, hns] at hok ⊢
  rcases hsa : safeAdd s.currentEpoch spec.epochsPerSlashingsVector >>=
      fun x => safeAdd x 1 with _ | bound
  · simp [hsa] at hok
  · have hbound : bound = s.currentEpoch + spec.epochsPerSlashingsVector + 1 := by
      simp only [safeAdd, Option.bind_eq_bind] at hsa
      split_ifs at hsa <;> simp_all
    subst hbound
    simp only [hsa] at hok ⊢
    rcases hsl : s.slashings[s.currentEpoch % spec.epochsPerSlashingsVector]?
        with _ | bucket
    · simp [hsl] at hok
    · simp only [hsl] at hok ⊢
      rcases hsb : safeAdd bucket v.effectiveBalance with _ | bucket'
      · simp [hsb] at hok
      · have hbucket : bucket' = bucket + v.effectiveBalance := by
          simp only [safeAdd] at hsb
          split_ifs at hsb <;> simp_all
        subst hbucket
        simp only [hsb] at hok ⊢
        rcases hsd : safeDiv v.effectiveBalance
            (spec.minSlashingPenaltyQuotientForState s.fork) with _ | penalty
        · simp [hsd] at hok
        · have hpen : penalty = v.effectiveBalance /
              spec.minSlashingPenaltyQuotientForState s.fork := by
            simp only [safeDiv] at hsd
            split_ifs at hsd <;> simp_all
          subst hpen
          simp only [hsd] at hok ⊢
          rcases hb : s.balances[i]? with _ | b
          · simp [decreaseBalance, hb] at hok
          · have hblen : i < s.balances.length := (List.getElem?_eq_some.mp hb).1
            have hslen : s.currentEpoch % spec.epochsPerSlashingsVector <
                s.slashings.length := (List.getElem?_eq_some.mp hsl).1
            refine ⟨?_, ⟨bucket, rfl, ?_⟩, ⟨b, rfl, ?_⟩⟩
            · simp [decreaseBalance, hb, List.set_set, slashedOutcome,
                List.getElem?_set_eq_of_lt _ (by simpa using hvlen)]
            · simp [decreaseBalance, hb,
                List.getElem?_set_eq_of_lt _ (by simpa using hslen)]
            · simp [decreaseBalance, hb,
                List.getElem?_set_eq_of_lt _ (by simpa using hblen)]

/-- A not-yet-slashed validator with effective and actual balance
32 000 000 000. -/
def vC4w : Validator := ⟨32000000000, false, 0, 100000, 0⟩

/-- State in which validator 2 is the well-funded unslashed validator
`vC4w`. -/
def stC4w : BeaconState :=
  { emptyState with
    currentEpoch := 10
    validators := [vC4w, vC4w, vC4w]
    balances := [1, 1, 32000000000]
    slashings := [0, 0, 0, 0] }

/-- C4 witness: the amended theorem applied to a concrete slash of a
validator with effective balance 32 000 000 000 under quotient 64 — the
claim's scenario, where the loss is exactly 500 000 000. -/
theorem C4_witness :
    stC4w.validators[2]? = some vC4w ∧ vC4w.slashed = false ∧
    (slashValidator specC3 stC4w 2).1 = .ok () ∧
    ((slashValidator specC3 stC4w 2).2.validators[2]? = some
      (slashedOutcome vC4w
        (stC4w.currentEpoch + specC3.epochsPerSlashingsVector + 1)) ∧
    (∃ bucket,
      stC4w.slashings[stC4w.currentEpoch % specC3.epochsPerSlashingsVector]? =
        some bucket ∧
      (slashValidator specC3 stC4w 2).2.slashings[stC4w.currentEpoch %
          specC3.epochsPerSlashingsVector]? =
        some (bucket + vC4w.effectiveBalance)) ∧
    (∃ b, stC4w.balances[2]? = some b ∧
      (slashValidator specC3 stC4w 2).2.balances[2]? = some
        (b - vC4w.effectiveBalance /
          specC3.minSlashingPenaltyQuotientForState stC4w.fork))) :=
  ⟨rfl, rfl, rfl, C4_slash_effects specC3 stC4w 2 vC4w rfl rfl rfl⟩

/-- C5 counterexample: for a base reward of 3, the 70 % validator share, the
20 % dev-sink share and the 10 % marketing-sink share are 2, 0 and 0, which
sum to 2, not 3 — integer floor division loses the remainder, so the split
does not sum to 100 % of the base reward. -/
theorem C5_counterexample :
    validatorShare 3 = 2 ∧ devShare 3 = 0 ∧ charityShare 3 = 0 ∧
    validatorShare 3 + devShare 3 + charityShare 3 ≠ 3 :=
  ⟨by decide, by decide, by decide, by decide⟩

/-- C5 (amended): the three percentage shares never sum to more than the base
reward (the split never fabricates balance), they sum to exactly the base
reward if and only if the reward is a multiple of 10 small enough not to hit
64-bit saturation, and every reward not divisible by 10 strictly loses its
floor-division remainder. -/
theorem C5_split_conservation (r : Nat) :
    validatorShare r + devShare r + charityShare r ≤ r ∧
    (validatorShare r + devShare r + charityShare r = r ↔
      (r % 10 = 0 ∧ r * 70 ≤ u64Max)) ∧
    (r % 10 ≠ 0 → validatorShare r + devShare r + charityShare r < r) := by
  have h64 : u64Max = 18446744073709551615 := by norm_num [u64Max]
  simp only [validatorShare, devShare, charityShare, saturatingMul,
    VALIDATOR_REWARD_PERCENTAGE, GRIDBOX_REWARD_PERCENTAGE,
    MARKETING_REWARD_PERCENTAGE, h64]
  have h2070 : r * 20 ≤ r * 70 := Nat.mul_le_mul_left r (by norm_num)
  have h1070 : r * 10 ≤ r * 70 := Nat.mul_le_mul_left r (by norm_num)
  have h1020 : r * 10 ≤ r * 20 := Nat.mul_le_mul_left r (by norm_num)
  have hmod : r % 10 = 0 ∨ r % 10 = 1 ∨ r % 10 = 2 ∨ r % 10 = 3 ∨
      r % 10 = 4 ∨ r % 10 = 5 ∨ r % 10 = 6 ∨ r % 10 = 7 ∨ r % 10 = 8 ∨
      r % 10 = 9 := by omega
  rcases Nat.le_total (r * 70) 18446744073709551615 with h70 | h70
  · rw [min_eq_left h70, min_eq_left (le_trans h2070 h70),
      min_eq_left (le_trans h1070 h70)]
    rcases hmod with h | h | h | h | h | h | h | h | h | h <;> omega
  · rw [min_eq_right h70]
    rcases Nat.le_total (r * 20) 18446744073709551615 with h20 | h20
    · rw [min_eq_left h20, min_eq_left (le_trans h1020 h20)]
      omega
    · rw [min_eq_right h20]
      rcases Nat.le_total (r * 10) 18446744073709551615 with h10 | h10
      · rw [min_eq_left h10]
        omega
      · rw [min_eq_right h10]
        omega

/-- C5 witness: the amended theorem applied to concrete rewards — 250 (a
multiple of 10: shares 175 + 50 + 25 sum to exactly 250) and 253 (not a
multiple of 10: the shares sum to strictly less than 253). -/
theorem C5_witness :
    ((250 : Nat) % 10 = 0 ∧ 250 * 70 ≤ u64Max ∧
      validatorShare 250 + devShare 250 + charityShare 250 = 250) ∧
    ((253 : Nat) % 10 ≠ 0 ∧
      validatorShare 253 + devShare 253 + charityShare 253 < 253) :=
  ⟨⟨by decide, by decide,
    (C5_split_conservation 250).2.1.mpr ⟨by decide, by decide⟩⟩,
   ⟨by decide, (C5_split_conservation 253).2.2 (by decide)⟩⟩

/-- A pre-Altair (`Base`-variant) state. -/
def stC6 : BeaconState := { emptyState with fork := .base }

/-- An empty sync aggregate. -/
def aggC6 : SyncAggregate := ⟨[]⟩

/-- C6 counterexample: on a `Base` (pre-sync-committee) state,
`process_sync_aggregate` with signature verification disabled returns `Ok`
rather than an incorrect-state-type error — the fork dispatch only lives in
the helper whose call is commented out. -/
theorem C6_counterexample :
    stC6.fork = .base ∧
    (processSyncAggregate stC6 aggC6 0 false).1 = .ok () :=
  ⟨rfl, rfl⟩

/-- C6 (amended): `process_sync_aggregate` itself performs no state-variant
dispatch — with signature verification disabled it succeeds on every state,
including pre-Altair ones; the incorrect-state-type failure for pre-Altair
states exists only in the helper `process_sync_committee_contributions`,
whose only call site is commented out. -/
theorem C6_fork_dispatch :
    (∀ (s : BeaconState) (agg : SyncAggregate) (pi : Nat),
      (processSyncAggregate s agg pi false).1 = .ok ()) ∧
    (∀ (s : BeaconState) (agg : SyncAggregate), s.fork = .base →
      processSyncCommitteeContributions s agg = .error .incorrectStateType) := by
  constructor
  · intro s agg pi
    rfl
  · intro s agg h
    simp [processSyncCommitteeContributions, h]

/-- C6 witness: the amended theorem applied to the concrete `Base` state:
`process_sync_aggregate` succeeds on it while the dead helper would have
rejected it. -/
theorem C6_witness :
    (processSyncAggregate stC6 aggC6 0 false).1 = .ok () ∧
    stC6.fork = .base ∧
    processSyncCommitteeContributions stC6 aggC6 = .error .incorrectStateType :=
  ⟨C6_fork_dispatch.1 stC6 aggC6 0, rfl, C6_fork_dispatch.2 stC6 aggC6 rfl⟩

/-- C10: `process_sync_aggregate` returns the state exactly as received on
every path — signature verification succeeds or fails, block-root lookup
fails, or verification is skipped — no participation flags, balances or any
other state field are modified. -/
theorem C10_sync_aggregate_frame (s : BeaconState) (agg : SyncAggregate)
    (pi : Nat) (vs : VerifySignatures) :
    (processSyncAggregate s agg pi vs).2 = s := by
  unfold processSyncAggregate
  rcases vs with _ | _
  · rfl
  · rcases hbr : s.blockRootAt (s.slot - 1) with _ | root
    · simp [hbr]
    · rcases hss : s.syncSignatureSet agg.syncCommitteeBits with _ | ob
      · simp [hbr, hss]
      · rcases ob with _ | b
        · simp [hbr, hss]
        · rcases b with _ | _ <;> simp [hbr, hss]

/-- A threshold/value step function: the abstract shape of the proposer
branch ladder, used to reason about it uniformly. -/
def ladder : List (Nat × Nat) → Nat → Nat
  | [], _ => 0
  | (t, v) :: rest, e => if e ≤ t then v else ladder rest e

/-- The proposer branch ladder of `calculate_reward_amounts` as a
threshold/value table. -/
def proposerTable : List (Nat × Nat) :=
  [(25200, 2600000000), (100800, 2100000000), (176400, 1700000000),
   (252000, 1300000000), (327600, 1100000000), (403200, 1000000000),
   (478800, 900000000), (554400, 750000000), (630000, 650000000),
   (705600, 650000000), (781200, 600000000), (856800, 550000000),
   (932400, 500000000), (1008000, 450000000), (1083600, 400000000),
   (1159200, 350000000), (1234800, 300000000), (1310400, 250000000),
   (1386000, 200000000), (1461600, 150000000), (1537200, 100000000),
   (1612800, 50000000), (1688400, 45000000), (1764000, 40000000),
   (1839600, 35000000), (1915200, 30000000), (1990800, 25000000),
   (2066400, 20000000), (2142000, 15000000), (2217600, 10000000),
   (2293200, 5000000)]

/-- The if-chain of `calculate_reward_amounts` is exactly the table ladder. -/
theorem proposerRewardAmount_eq_ladder (e : Nat) :
    proposerRewardAmount e = ladder proposerTable e := rfl

/-- A ladder never exceeds a bound dominating all its values. -/
theorem ladder_le_bound (l : List (Nat × Nat)) (B : Nat)
    (h : ∀ p ∈ l, p.2 ≤ B) (e : Nat) : ladder l e ≤ B := by
  induction l with
  | nil => simp [ladder]
  | cons hd tl ih =>
    simp only [ladder]
    split_ifs
    · exact h hd (by simp)
    · exact ih fun p hp => h p (by simp [hp])

/-- A ladder whose values are pairwise non-increasing along the table is a
non-increasing function of the epoch. -/
theorem ladder_succ_le (l : List (Nat × Nat))
    (h : l.Pairwise fun p q => q.2 ≤ p.2) (e : Nat) :
    ladder l (e + 1) ≤ ladder l e := by
  induction l with
  | nil => simp [ladder]
  | cons hd tl ih =>
    rcases List.pairwise_cons.mp h with ⟨h1, h2⟩
    simp only [ladder]
    split_ifs with ha hb hb
    · exact le_refl _
    · omega
    · exact ladder_le_bound tl hd.2 h1 (e + 1)
    · exact ih h2

/-- C8: under the default reward configuration, each of the three magnitudes
returned by `calculate_reward_amounts` at epoch `e + 1` is at most the
corresponding magnitude at epoch `e`: the proposer ladder is a non-increasing
step function and the attestation and sync-committee magnitudes are constant
in the epoch. -/
theorem C8_reward_monotone (e : Nat) :
    (calculateRewardAmounts (e + 1) defaultRewardConfig).proposerReward ≤
      (calculateRewardAmounts e defaultRewardConfig).proposerReward ∧
    (calculateRewardAmounts (e + 1) defaultRewardConfig).attestationReward ≤
      (calculateRewardAmounts e defaultRewardConfig).attestationReward ∧
    (calculateRewardAmounts (e + 1) defaultRewardConfig).syncCommitteeReward ≤
      (calculateRewardAmounts e defaultRewardConfig).syncCommitteeReward := by
  refine ⟨?_, le_refl _, le_refl _⟩
  have hp : ∀ ep, (calculateRewardAmounts ep defaultRewardConfig).proposerReward
      = ladder proposerTable ep := fun ep => proposerRewardAmount_eq_ladder ep
  rw [hp, hp]
  exact ladder_succ_le proposerTable (by decide) e

/-- State whose current sync committee holds public keys 10 and 11, of which
only 10 resolves to a validator index (validator 2). -/
def stC7 : BeaconState :=
  { emptyState with
    currentEpoch := 3
    validators := [⟨32000000000, false, 0, 100, 100⟩,
                   ⟨32000000000, false, 0, 100, 100⟩,
                   ⟨32000000000, false, 0, 100, 100⟩]
    balances := [1, 1, 1]
    currentSyncCommittee := some [10, 11]
    validatorIndexOf := fun pk => if pk = 10 then some 2 else none }

/-- C7 counterexample: with no sync-aggregate bit set, the per-block pass
credits nobody, but the per-epoch sync reward pass of
`process_rewards_and_penalties` credits validator 2 — it rewards every
resolved member of the current sync committee without consulting any
aggregate's bits, contradicting the claim for that reward pass. -/
theorem C7_counterexample :
    syncCommitteeIndices stC7 [false, false] = [] ∧
    epochSyncCommitteeValidators stC7 = [2] :=
  ⟨rfl, rfl⟩

/-- C7 (amended): in the per-block pass (`apply_sync_committee_rewards`) the
credited validators are exactly those obtained by resolving the public key of
each set bit of the supplied aggregate through the validator-index lookup —
in particular an aggregate with no set bits credits zero validators; the
per-epoch pass (`process_rewards_and_penalties`) instead credits every
member of the current sync committee whose public key resolves, ignoring
aggregate participation bits. -/
theorem C7_sync_credited_sets :
    (∀ (s : BeaconState) (bits : List Bool) (v : Nat),
      v ∈ syncCommitteeIndices s bits ↔
        ∃ pubkeys, s.currentSyncCommittee = some pubkeys ∧
          ∃ i pk, bits.getD i false = true ∧ pubkeys[i]? = some pk ∧
            s.validatorIndexOf pk = some v) ∧
    (∀ (s : BeaconState) (bits : List Bool),
      (∀ i, bits.getD i false = false) → syncCommitteeIndices s bits = []) ∧
    (∀ (s : BeaconState) (v : Nat),
      v ∈ epochSyncCommitteeValidators s ↔
        ∃ pubkeys, s.currentSyncCommittee = some pubkeys ∧
          ∃ pk, pk ∈ pubkeys ∧ s.validatorIndexOf pk = some v) := by
  refine ⟨?_, ?_, ?_⟩
  · intro s bits v
    unfold syncCommitteeIndices syncCommitteePairs
    cases hc : s.currentSyncCommittee with
    | none => simp
    | some pubkeys =>
      simp only [List.mem_filterMap, List.mem_filter, List.mem_range,
        Option.some.injEq]
      constructor
      · rintro ⟨pk, ⟨i, ⟨hilen, hbit⟩, hpk⟩, hv⟩
        exact ⟨pubkeys, rfl, i, pk, hbit, hpk, hv⟩
      · rintro ⟨pks, rfl, i, pk, hbit, hpk, hv⟩
        exact ⟨pk, ⟨i, ⟨(List.getElem?_eq_some.mp hpk).1, hbit⟩, hpk⟩, hv⟩
  · intro s bits hz
    unfold syncCommitteeIndices syncCommitteePairs
    cases hc : s.currentSyncCommittee with
    | none => simp
    | some pubkeys =>
      have hfe : ((List.range pubkeys.length).filter
          fun i => bits.getD i false) = [] :=
        List.filter_eq_nil_iff.mpr fun i _ => by
          show ¬(bits.getD i false = true)
          rw [hz i]
          simp
      show List.filterMap s.validatorIndexOf
        (List.filterMap (fun i => pubkeys[i]?)
          ((List.range pubkeys.length).filter fun i => bits.getD i false)) = []
      rw [hfe]
      rfl
  · intro s v
    unfold epochSyncCommitteeValidators
    cases hc : s.currentSyncCommittee with
    | none => simp
    | some pubkeys =>
      simp only [List.mem_filterMap, Option.some.injEq]
      constructor
      · rintro ⟨pk, hpk, hv⟩
        exact ⟨pubkeys, rfl, pk, hpk, hv⟩
      · rintro ⟨pks, rfl, pk, hpk, hv⟩
        exact ⟨pk, hpk, hv⟩

/-- C7 witness: the amended theorem applied to the concrete state `stC7`
with an all-zero bitlist: the per-block pass credits zero validators, and
validator 2 is credited by the per-epoch pass because committee key 10
resolves to it. -/
theorem C7_witness :
    (∀ i, ([false, false] : List Bool).getD i false = false) ∧
    syncCommitteeIndices stC7 [false, false] = [] ∧
    (2 ∈ epochSyncCommitteeValidators stC7 ↔
      ∃ pubkeys, stC7.currentSyncCommittee = some pubkeys ∧
        ∃ pk, pk ∈ pubkeys ∧ stC7.validatorIndexOf pk = some 2) :=
  ⟨fun i => by cases i with
    | zero => rfl
    | succ n => cases n <;> rfl,
   C7_sync_credited_sets.2.1 stC7 [false, false]
     (fun i => by cases i with
       | zero => rfl
       | succ n => cases n <;> rfl),
   C7_sync_credited_sets.2.2 stC7 2⟩

/-- `flagged_indices` produces no index iff every participation byte is
zero. -/
theorem flaggedIndices_eq_nil_iff (ps : List Nat) :
    flaggedIndices ps = [] ↔ (ps.all fun b => b = 0) = true := by
  simp only [flaggedIndices, List.filter_eq_nil_iff, List.mem_range,
    List.all_eq_true, decide_eq_true_eq]
  constructor
  · intro h b hb
    rcases List.mem_iff_getElem.mp hb with ⟨i, hlt, rfl⟩
    have hni := h i hlt
    rw [List.getD_eq_getElem?_getD, List.getElem?_eq_getElem hlt] at hni
    simpa using hni
  · intro h i hlt
    rw [List.getD_eq_getElem?_getD, List.getElem?_eq_getElem hlt]
    have := h ps[i] (List.getElem_mem hlt)
    simp [this]

/-- Membership in `flaggedIndices`: exactly the indices whose byte exists and
is non-zero. -/
theorem mem_flaggedIndices (ps : List Nat) (v : Nat) :
    v ∈ flaggedIndices ps ↔ ∃ b, ps[v]? = some b ∧ 0 < b := by
  simp only [flaggedIndices, List.mem_filter, List.mem_range,
    decide_eq_true_eq]
  constructor
  · rintro ⟨hlt, hpos⟩
    rw [List.getD_eq_getElem?_getD, List.getElem?_eq_getElem hlt] at hpos
    exact ⟨ps[v], List.getElem?_eq_getElem hlt, by simpa using hpos⟩
  · rintro ⟨b, hb, hbpos⟩
    have hlt := (List.getElem?_eq_some.mp hb).1
    refine ⟨hlt, ?_⟩
    rw [List.getD_eq_getElem?_getD, hb]
    simpa using hbpos

/-- Membership in the active-validator fallback list. -/
theorem mem_activeValidatorIndices (s : BeaconState) (v : Nat) :
    v ∈ activeValidatorIndices s ↔
      ∃ val, s.validators[v]? = some val ∧
        val.isActiveAt s.currentEpoch = true := by
  simp only [activeValidatorIndices, List.mem_filter, List.mem_range]
  constructor
  · rintro ⟨hlt, hact⟩
    rcases hsome : s.validators[v]? with _ | val
    · rw [hsome] at hact
      simp at hact
    · rw [hsome] at hact
      exact ⟨val, rfl, hact⟩
  · rintro ⟨val, hval, hact⟩
    refine ⟨(List.getElem?_eq_some.mp hval).1, ?_⟩
    rw [hval]
    exact hact

/-- With every participation byte zero (or unavailable), the collection
falls back to the active validators. -/
theorem collect_eq_active (s : BeaconState)
    (h : noParticipationFlags s = true) :
    collectAttestingValidators s = activeValidatorIndices s := by
  rcases hp : s.previousEpochParticipation with _ | ps
  · rcases hc : s.currentEpochParticipation with _ | cs
    · simp only [collectAttestingValidators, hp, hc]
      rfl
    · simp only [noParticipationFlags, hp, hc, Bool.true_and] at h
      simp only [collectAttestingValidators, hp, hc,
        (flaggedIndices_eq_nil_iff cs).mpr h]
      rfl
  · rcases hc : s.currentEpochParticipation with _ | cs
    · simp only [noParticipationFlags, hp, hc, Bool.and_true] at h
      simp only [collectAttestingValidators, hp, hc,
        (flaggedIndices_eq_nil_iff ps).mpr h]
      rfl
    · simp only [noParticipationFlags, hp, hc, Bool.and_eq_true] at h
      simp only [collectAttestingValidators, hp, hc,
        (flaggedIndices_eq_nil_iff ps).mpr h.1,
        (flaggedIndices_eq_nil_iff cs).mpr h.2]
      rfl

/-- With at least one non-zero participation byte, membership in the
collection is exactly the non-zero-byte characterisation over the two
epochs. -/
theorem mem_collect_of_flags (s : BeaconState) (v : Nat)
    (h : noParticipationFlags s = false) :
    v ∈ collectAttestingValidators s ↔
      ((∃ ps b, s.previousEpochParticipation = some ps ∧
          ps[v]? = some b ∧ 0 < b) ∨
       (∃ cs b, s.currentEpochParticipation = some cs ∧
          cs[v]? = some b ∧ 0 < b)) := by
  rcases hp : s.previousEpochParticipation with _ | ps
  · rcases hc : s.currentEpochParticipation with _ | cs
    · simp [noParticipationFlags, hp, hc] at h
    · simp only [noParticipationFlags, hp, hc, Bool.true_and] at h
      have hne : flaggedIndices cs ≠ [] := fun hnil => by
        rw [flaggedIndices_eq_nil_iff] at hnil
        simp [hnil] at h
      have hcond : ¬((([] ++ flaggedIndices cs).dedup).isEmpty = true) := by
        simp [List.isEmpty_iff, List.dedup_eq_nil, hne]
      simp only [collectAttestingValidators, hp, hc]
      rw [if_neg hcond]
      simp only [List.nil_append, List.mem_dedup, mem_flaggedIndices]
      simp [hc, hp]
  · rcases hc : s.currentEpochParticipation with _ | cs
    · simp only [noParticipationFlags, hp, hc, Bool.and_true] at h
      have hne : flaggedIndices ps ≠ [] := fun hnil => by
        rw [flaggedIndices_eq_nil_iff] at hnil
        simp [hnil] at h
      have hcond : ¬(((flaggedIndices ps ++ []).dedup).isEmpty = true) := by
        simp [List.isEmpty_iff, List.dedup_eq_nil, hne]
      simp only [collectAttestingValidators, hp, hc]
      rw [if_neg hcond]
      simp only [List.append_nil, List.mem_dedup, mem_flaggedIndices]
      simp [hc, hp]
    · simp only [noParticipationFlags, hp, hc, Bool.and_eq_true] at h
      have hne : flaggedIndices ps ++ flaggedIndices cs ≠ [] := by
        intro hnil
        rcases List.append_eq_nil.mp hnil with ⟨h1, h2⟩
        rw [flaggedIndices_eq_nil_iff] at h1 h2
        simp [h1, h2] at h
      have hcond :
          ¬(((flaggedIndices ps ++ flaggedIndices cs).dedup).isEmpty = true) := by
        simp [List.isEmpty_iff, List.dedup_eq_nil, hne]
      simp only [collectAttestingValidators, hp, hc]
      rw [if_neg hcond]
      simp only [List.mem_dedup, List.mem_append, mem_flaggedIndices]
      simp [hc, hp]

/-- C9: when no validator has any previous- or current-epoch participation
flag bit set (or the participation lists are unavailable),
`collect_attesting_validators` returns exactly the indices of the validators
active at the state's current epoch; otherwise it returns exactly the
indices whose participation byte is non-zero in either epoch. -/
theorem C9_collect_attesting (s : BeaconState) :
    (noParticipationFlags s = true →
      ∀ v, v ∈ collectAttestingValidators s ↔
        ∃ val, s.validators[v]? = some val ∧
          val.isActiveAt s.currentEpoch = true) ∧
    (noParticipationFlags s = false →
      ∀ v, v ∈ collectAttestingValidators s ↔
        ((∃ ps b, s.previousEpochParticipation = some ps ∧
            ps[v]? = some b ∧ 0 < b) ∨
         (∃ cs b, s.currentEpochParticipation = some cs ∧
            cs[v]? = some b ∧ 0 < b))) := by
  constructor
  · intro h v
    rw [collect_eq_active s h]
    exact mem_activeValidatorIndices s v
  · intro h v
    exact mem_collect_of_flags s v h

/-- State whose current-epoch participation list marks validator 1 with byte
3 — the non-degenerate branch. -/
def stC9 : BeaconState :=
  { emptyState with
    currentEpoch := 0
    validators := [⟨32000000000, false, 0, 100, 100⟩,
                   ⟨32000000000, false, 0, 100, 100⟩]
    balances := [1, 1]
    currentEpochParticipation := some [0, 3] }

/-- State (epoch 0) whose participation lists are empty for all validators —
the degenerate fallback branch of the claim's scenario. -/
def stC9b : BeaconState :=
  { emptyState with
    currentEpoch := 0
    validators := [⟨32000000000, false, 0, 100, 100⟩,
                   ⟨32000000000, false, 0, 100, 100⟩]
    balances := [1, 1]
    previousEpochParticipation := some []
    currentEpochParticipation := some [] }

/-- C9 witness: the theorem applied to both concrete branches — a state with
a set participation byte (validator 1 collected via the byte
characterisation) and an all-empty participation state (fallback to active
validators). -/
theorem C9_witness :
    (noParticipationFlags stC9 = false ∧
      (1 ∈ collectAttestingValidators stC9 ↔
        ((∃ ps b, stC9.previousEpochParticipation = some ps ∧
            ps[1]? = some b ∧ 0 < b) ∨
         (∃ cs b, stC9.currentEpochParticipation = some cs ∧
            cs[1]? = some b ∧ 0 < b)))) ∧
    (noParticipationFlags stC9b = true ∧
      (0 ∈ collectAttestingValidators stC9b ↔
        ∃ val, stC9b.validators[0]? = some val ∧
          val.isActiveAt stC9b.currentEpoch = true)) :=
  ⟨⟨rfl, (C9_collect_attesting stC9).2 rfl 1⟩,
   ⟨rfl, (C9_collect_attesting stC9b).1 rfl 0⟩⟩

end BX
